import Mathlib

/-!
Verification development for the platypus scripting-language interpreter.

The definitions below are a shallow embedding of the Rust sources:
  * `src/parser/ast.rs`      — the AST (statements, expressions, literals, patterns)
  * `src/runtime/value.rs`   — the runtime value model (`Value`, `type_name`,
                               `is_truthy`, `to_number`)
  * `src/runtime/builtins.rs`— the builtin registry and dispatcher
  * `src/runtime/mod.rs`     — the tree-walking interpreter (`Interpreter`)
  * `src/lexer/token.rs` and the expression part of `src/parser/mod.rs`
                              — the token model and the recursive-descent
                               expression parser

Rust `f64` numbers are modelled as `Rat` (every program in this development
uses only small exact decimals, so no rounding behaviour is exercised).
Rust `HashMap`s are modelled as association lists with replacing insert;
every source loop that iterates a `HashMap` either folds commuting updates
over distinct keys or rebuilds a map, so the list order never influences a
result.  `println!` output of the `print` builtin is outside the model
(`print` returns `Null` as in the source).  Error messages are reproduced
from the source `format!` strings, with the single-quote characters around
interpolated names elided.  Recursion of the interpreter and parser is made
total with an explicit fuel argument; `Err.fuel` marks fuel exhaustion and
is distinct from every interpreter/parser error the source can report.
-/

namespace Platypus

/-! ### AST (`src/parser/ast.rs`) -/

/-- `Literal` from ast.rs; `Number(f64)` modelled as `Rat`. -/
inductive Literal where
  | number (n : Rat)
  | str (s : String)
  | boolean (b : Bool)
  | null
deriving Repr

/-- `Pattern` from ast.rs. -/
inductive Pattern where
  | literal (l : Literal)
  | identifier (name : String)
  | wildcard
deriving Repr

/-- `BinaryOp` from ast.rs. -/
inductive BinaryOp where
  | add | subtract | multiply | divide
  | equal | notEqual
  | less | lessEqual | greater | greaterEqual
  | and | or
deriving Repr, DecidableEq

/-- `UnaryOp` from ast.rs. -/
inductive UnaryOp where
  | not | negate
deriving Repr, DecidableEq

/-- `Expr` from ast.rs.  `Variable` is `var`, `Match` is `matchE`, `New` is
`newE` (Lean keyword clashes); a `MatchCase` is the pair (pattern, body). -/
inductive Expr where
  | literal (l : Literal)
  | var (name : String)
  | assign (name : String) (value : Expr)
  | propertyAssign (object : Expr) (property : String) (value : Expr)
  | binaryOp (left : Expr) (operator : BinaryOp) (right : Expr)
  | unaryOp (operator : UnaryOp) (right : Expr)
  | functionCall (name : String) (args : List Expr)
  | lambda (params : List String) (body : Expr)
  | matchE (scrutinee : Expr) (cases : List (Pattern × Expr))
  | array (elements : List Expr)
  | newE (className : String) (args : List Expr)
  | methodCall (object : Expr) (method : String) (args : List Expr)
  | propertyAccess (object : Expr) (property : String)
deriving Repr

/-- `Stmt` from ast.rs.  `Return` is `ret`, `Expr` is `exprStmt`, `If` is
`ifS`, `While` is `whileS`, `For` is `forS` (keyword clashes); a method
entry is the tuple (name, params, return type, body). -/
inductive Stmt where
  | varDecl (name : String) (value : Expr)
  | funcDecl (name : String) (params : List String) (returnType : Option String)
      (body : List Stmt)
  | ret (value : Option Expr)
  | exprStmt (e : Expr)
  | ifS (condition : Expr) (thenBranch : Stmt) (elseBranch : Option Stmt)
  | whileS (condition : Expr) (body : Stmt)
  | forS (init : Option Stmt) (condition : Option Expr) (increment : Option Expr)
      (body : Stmt)
  | forEach (varName : String) (iterable : Expr) (body : Stmt)
  | classDecl (name : String) (parentName : Option String)
      (methods : List (String × List String × Option String × List Stmt))
      (properties : List (String × Expr))
  | block (stmts : List Stmt)
deriving Repr

/-! ### Value model (`src/runtime/value.rs`) -/

/-- `Value` from value.rs.  `Class` is `classV`, `Object` is `object`
(keyword/name hygiene); `HashMap<String, _>` fields are association lists. -/
inductive Value where
  | number (n : Rat)
  | str (s : String)
  | boolean (b : Bool)
  | array (elements : List Value)
  | function (params : List String) (body : List Stmt)
      (closure : List (String × Value))
  | lambda (params : List String) (body : Expr)
      (closure : List (String × Value))
  | nativeFunction (name : String) (arity : Nat)
  | classV (name : String) (parent : Option Value)
      (methods : List (String × List String × List Stmt))
      (properties : List (String × Value))
  | object (className : String) (properties : List (String × Value))
  | null
deriving Repr

/-- An environment: the model of `HashMap<String, Value>`. -/
abbrev Env := List (String × Value)

/-- `HashMap::get`. -/
def envGet (env : Env) (name : String) : Option Value :=
  match env with
  | [] => none
  | (k, v) :: rest => if k = name then some v else envGet rest name

/-- `HashMap::insert`: replaces an existing entry, otherwise appends. -/
def envInsert (env : Env) (name : String) (v : Value) : Env :=
  match env with
  | [] => [(name, v)]
  | (k, w) :: rest =>
    if k = name then (name, v) :: rest else (k, w) :: envInsert rest name v

/-- `Value::type_name` from value.rs. -/
def Value.typeName : Value → String
  | .number _ => "Number"
  | .str _ => "String"
  | .boolean _ => "Boolean"
  | .array _ => "Array"
  | .function _ _ _ => "Function"
  | .lambda _ _ _ => "Function"
  | .nativeFunction _ _ => "Function"
  | .classV _ _ _ _ => "Class"
  | .object _ _ => "Object"
  | .null => "Null"

/-- `Value::is_truthy` from value.rs. -/
def Value.isTruthy : Value → Bool
  | .null => false
  | .boolean b => b
  | .number n => decide (n ≠ 0)
  | .str s => !s.isEmpty
  | .array arr => !arr.isEmpty
  | _ => true

/-- Value of a digit string, `none` on a non-digit. -/
def natOfDigits (cs : List Char) : Option Nat :=
  cs.foldl
    (fun acc c =>
      acc.bind fun n => if c.isDigit then some (n * 10 + (c.toNat - 48)) else none)
    (some 0)

/-- Model of Rust `str::parse::<f64>` restricted to the plain decimal forms
(`[-]digits[.digits]`) this language's lexer can produce; no claim in this
development depends on any other accepted form. -/
def parseDecimal (s : String) : Option Rat :=
  let cs := s.toList
  let (neg, cs) := match cs with
    | '-' :: rest => (true, rest)
    | rest => (false, rest)
  let (intPart, rest) := cs.span Char.isDigit
  let mag : Option Rat :=
    match rest with
    | [] =>
      if intPart.isEmpty then none
      else (natOfDigits intPart).map (fun n => (n : Rat))
    | '.' :: fracPart =>
      if fracPart.all Char.isDigit ∧ ¬(intPart.isEmpty ∧ fracPart.isEmpty) then
        (natOfDigits (intPart ++ fracPart)).map
          (fun n => (n : Rat) / ((10 : Rat) ^ fracPart.length))
      else none
    | _ => none
  mag.map (fun m => if neg then -m else m)

/-- `Value::to_number` from value.rs. -/
def Value.toNumber : Value → Except String Rat
  | .number n => .ok n
  | .str s =>
    match parseDecimal s with
    | some n => .ok n
    | none => .error ("Cannot convert " ++ s ++ " to number")
  | .boolean b => .ok (if b then 1 else 0)
  | v => .error ("Cannot convert " ++ v.typeName ++ " to number")

/-! ### Builtins (`src/runtime/builtins.rs`) -/

/-- `register_builtins`: the five native functions, in insertion order. -/
def registerBuiltins : Env :=
  [("typeof", .nativeFunction "typeof" 1),
   ("print", .nativeFunction "print" 1),
   ("map", .nativeFunction "map" 2),
   ("filter", .nativeFunction "filter" 2),
   ("len", .nativeFunction "len" 1)]

/-- `call_builtin`; the `println!` of `print` is outside the model. -/
def callBuiltin (name : String) (args : List Value) : Except String Value :=
  match name with
  | "typeof" =>
    match args with
    | [a] => .ok (.str a.typeName)
    | _ => .error ("typeof expects 1 argument, got " ++ toString args.length)
  | "print" =>
    match args with
    | [_] => .ok .null
    | _ => .error ("print expects 1 argument, got " ++ toString args.length)
  | "len" =>
    match args with
    | [a] =>
      match a with
      | .array arr => .ok (.number arr.length)
      | .str s => .ok (.number s.length)
      | v => .error ("len expects Array or String, got " ++ v.typeName)
    | _ => .error ("len expects 1 argument, got " ++ toString args.length)
  | _ => .error ("Unknown builtin function: " ++ name)

/-! ### Interpreter state and name resolution (`src/runtime/mod.rs`) -/

/-- The `Interpreter` struct: global bindings, the scope stack (here the
head of `scopes` is the innermost frame, i.e. the last-pushed end of the
Rust `Vec`), and the `in_context` flag.  Errors abort the whole run, so no
state is carried on the error path. -/
structure InterpState where
  globals : Env
  scopes : List Env
  inContext : Bool
deriving Repr

/-- `Interpreter::new`. -/
def initState : InterpState :=
  { globals := registerBuiltins, scopes := [], inContext := false }

/-- `Interpreter::get_variable`: innermost scope outward, then globals. -/
def getVariable (st : InterpState) (name : String) : Except String Value :=
  match st.scopes.findSome? (fun sc => envGet sc name) with
  | some v => .ok v
  | none =>
    match envGet st.globals name with
    | some v => .ok v
    | none => .error ("Undefined variable: " ++ name)

/-- Helper for `set_variable`: update the innermost frame that already
contains the name; `none` when no frame does. -/
def setInScopes (scopes : List Env) (name : String) (v : Value) :
    Option (List Env) :=
  match scopes with
  | [] => none
  | sc :: rest =>
    if (envGet sc name).isSome then some (envInsert sc name v :: rest)
    else (setInScopes rest name v).map (sc :: ·)

/-- `Interpreter::set_variable`: assignment to an existing scope binding,
else to globals. -/
def setVariable (st : InterpState) (name : String) (v : Value) : InterpState :=
  match setInScopes st.scopes name v with
  | some scs => { st with scopes := scs }
  | none => { st with globals := envInsert st.globals name v }

/-- `Interpreter::define_variable`: the innermost frame, or globals when no
frame is active. -/
def defineVariable (st : InterpState) (name : String) (v : Value) : InterpState :=
  match st.scopes with
  | sc :: rest => { st with scopes := envInsert sc name v :: rest }
  | [] => { st with globals := envInsert st.globals name v }

/-- `Interpreter::push_scope`. -/
def pushScope (st : InterpState) : InterpState :=
  { st with scopes := [] :: st.scopes }

/-- `Interpreter::pop_scope`. -/
def popScope (st : InterpState) : InterpState :=
  { st with scopes := st.scopes.tail }

/-- `Interpreter::capture_closure`: flatten the scope frames, outermost
first so that inner frames override outer ones; the globals are not read. -/
def captureClosure (st : InterpState) : Env :=
  st.scopes.reverse.foldl
    (fun acc sc => sc.foldl (fun a kv => envInsert a kv.1 kv.2) acc) []

/-! ### Operator semantics (`src/runtime/mod.rs`) -/

/-- `Interpreter::literal_to_value`. -/
def literalToValue : Literal → Value
  | .number n => .number n
  | .str s => .str s
  | .boolean b => .boolean b
  | .null => .null

/-- `Interpreter::values_equal`. -/
def valuesEqual : Value → Value → Bool
  | .number x, .number y => decide (x = y)
  | .str x, .str y => decide (x = y)
  | .boolean x, .boolean y => x == y
  | .null, .null => true
  | _, _ => false

/-- `Interpreter::apply_binary_op`. -/
def applyBinaryOp (left : Value) (op : BinaryOp) (right : Value) :
    Except String Value :=
  match op with
  | .add =>
    match left, right with
    | .number a, .number b => .ok (.number (a + b))
    | .str a, .str b => .ok (.str (a ++ b))
    | _, _ =>
      .error ("Cannot add " ++ left.typeName ++ " and " ++ right.typeName)
  | .subtract => do
    let a ← left.toNumber
    let b ← right.toNumber
    .ok (.number (a - b))
  | .multiply => do
    let a ← left.toNumber
    let b ← right.toNumber
    .ok (.number (a * b))
  | .divide => do
    let a ← left.toNumber
    let b ← right.toNumber
    if b = 0 then .error "Division by zero" else .ok (.number (a / b))
  | .equal => .ok (.boolean (valuesEqual left right))
  | .notEqual => .ok (.boolean (!valuesEqual left right))
  | .less => do
    let a ← left.toNumber
    let b ← right.toNumber
    .ok (.boolean (decide (a < b)))
  | .lessEqual => do
    let a ← left.toNumber
    let b ← right.toNumber
    .ok (.boolean (decide (a ≤ b)))
  | .greater => do
    let a ← left.toNumber
    let b ← right.toNumber
    .ok (.boolean (decide (a > b)))
  | .greaterEqual => do
    let a ← left.toNumber
    let b ← right.toNumber
    .ok (.boolean (decide (a ≥ b)))
  | .and => .ok (.boolean (left.isTruthy && right.isTruthy))
  | .or => .ok (.boolean (left.isTruthy || right.isTruthy))

/-- `Interpreter::apply_unary_op`. -/
def applyUnaryOp (op : UnaryOp) (v : Value) : Except String Value :=
  match op with
  | .not => .ok (.boolean (!v.isTruthy))
  | .negate => do
    let n ← v.toNumber
    .ok (.number (-n))

/-- Model of `str::starts_with("_")`, the privacy naming test
(`String.startsWith` itself does not reduce definitionally). -/
def startsWithUnderscore (s : String) : Bool :=
  match s.data with
  | [] => false
  | c :: _ => c == '_'

/-- `Interpreter::pattern_matches`. -/
def patternMatches (pattern : Pattern) (v : Value) : Except String Bool :=
  match pattern with
  | .wildcard => .ok true
  | .literal lit => .ok (valuesEqual (literalToValue lit) v)
  | .identifier id => .ok (decide (id = v.typeName))

/-! ### The evaluator (`src/runtime/mod.rs`) -/

/-- Evaluation/parsing outcome marker: `fuel` is exhaustion of the explicit
fuel (the model of non-termination), `e` a reported interpreter or parser
error string. -/
inductive Err where
  | fuel
  | e (msg : String)
deriving Repr, DecidableEq

/-- Generic association-list get (`HashMap::get`), for the methods table. -/
def alistGet {α : Type} (l : List (String × α)) (k : String) : Option α :=
  match l with
  | [] => none
  | (k', v) :: rest => if k' = k then some v else alistGet rest k

/-- Generic association-list insert (`HashMap::insert`). -/
def alistInsert {α : Type} (l : List (String × α)) (k : String) (v : α) :
    List (String × α) :=
  match l with
  | [] => [(k, v)]
  | (k', w) :: rest =>
    if k' = k then (k, v) :: rest else (k', w) :: alistInsert rest k v

mutual

/-- `Interpreter::execute_stmt`. -/
def execStmt (fuel : Nat) (st : InterpState) (s : Stmt) :
    Except Err (Option Value × InterpState) :=
  match fuel with
  | 0 => .error .fuel
  | f + 1 =>
    match s with
    | .varDecl name value => do
      let (val, st1) ← evalExpr f st value
      match getVariable st1 name with
      | .ok _ => .ok (none, setVariable st1 name val)
      | .error _ => .ok (none, defineVariable st1 name val)
    | .funcDecl name params _ body =>
      let closure := captureClosure st
      .ok (none, defineVariable st name (.function params body closure))
    | .ret value =>
      match value with
      | some e => do
        let (v, st1) ← evalExpr f st e
        .ok (some v, st1)
      | none => .ok (some .null, st)
    | .exprStmt e => do
      let (_, st1) ← evalExpr f st e
      .ok (none, st1)
    | .ifS condition thenBranch elseBranch => do
      let (c, st1) ← evalExpr f st condition
      if c.isTruthy then execStmt f st1 thenBranch
      else
        match elseBranch with
        | some es => execStmt f st1 es
        | none => .ok (none, st1)
    | .whileS condition body => whileLoop f st condition body
    | .forS init condition increment body => do
      let (_, st1) ←
        match init with
        | some i => execStmt f st i
        | none => .ok (none, st)
      forLoop f st1 condition increment body
    | .forEach varName iterable body => do
      let (iterVal, st1) ← evalExpr f st iterable
      match iterVal with
      | .array items => forEachLoop f st1 varName items body
      | _ => .error (.e "Cannot iterate over non-array value in foreach loop")
    | .block stmts => do
      let (r, st1) ← runBody f (pushScope st) stmts
      .ok (r, popScope st1)
    | .classDecl name parentName methods properties => do
      let methodsMap := methods.foldl
        (fun acc m => alistInsert acc m.1 (m.2.1, m.2.2.2)) []
      let (propertiesMap, st1) ← evalClassProps f st properties []
      let parent ←
        match parentName with
        | some pn =>
          match getVariable st1 pn with
          | .ok (.classV a b c d) => .ok (some (Value.classV a b c d))
          | _ => .error (.e ("Parent class " ++ pn ++ " not found"))
        | none => .ok none
      .ok (none,
        defineVariable st1 name (.classV name parent methodsMap propertiesMap))
termination_by structural fuel

/-- The body loop shared by `Stmt::Block`, `call_function` and method
dispatch: run statements until the first one yields a `Return` value. -/
def runBody (fuel : Nat) (st : InterpState) (stmts : List Stmt) :
    Except Err (Option Value × InterpState) :=
  match fuel with
  | 0 => .error .fuel
  | f + 1 =>
    match stmts with
    | [] => .ok (none, st)
    | s :: rest => do
      let (r, st1) ← execStmt f st s
      match r with
      | some v => .ok (some v, st1)
      | none => runBody f st1 rest
termination_by structural fuel

/-- The `While` loop of `execute_stmt`. -/
def whileLoop (fuel : Nat) (st : InterpState) (condition : Expr) (body : Stmt) :
    Except Err (Option Value × InterpState) :=
  match fuel with
  | 0 => .error .fuel
  | f + 1 => do
    let (c, st1) ← evalExpr f st condition
    if c.isTruthy then do
      let (r, st2) ← execStmt f st1 body
      match r with
      | some v => .ok (some v, st2)
      | none => whileLoop f st2 condition body
    else .ok (none, st1)
termination_by structural fuel

/-- The `For` loop of `execute_stmt` (condition, body, increment, repeat). -/
def forLoop (fuel : Nat) (st : InterpState) (condition : Option Expr)
    (increment : Option Expr) (body : Stmt) :
    Except Err (Option Value × InterpState) :=
  match fuel with
  | 0 => .error .fuel
  | f + 1 => do
    let (condOk, st1) ←
      match condition with
      | some c => do
        let (v, s) ← evalExpr f st c
        (.ok (v.isTruthy, s) : Except Err (Bool × InterpState))
      | none => .ok (true, st)
    if condOk then do
      let (r, st2) ← execStmt f st1 body
      match r with
      | some v => .ok (some v, st2)
      | none =>
        match increment with
        | some i => do
          let (_, st3) ← evalExpr f st2 i
          forLoop f st3 condition increment body
        | none => forLoop f st2 condition increment body
    else .ok (none, st1)
termination_by structural fuel

/-- The `ForEach` loop of `execute_stmt`: `define_variable` then body, for
each element. -/
def forEachLoop (fuel : Nat) (st : InterpState) (varName : String)
    (items : List Value) (body : Stmt) :
    Except Err (Option Value × InterpState) :=
  match fuel with
  | 0 => .error .fuel
  | f + 1 =>
    match items with
    | [] => .ok (none, st)
    | item :: rest => do
      let (r, st1) ← execStmt f (defineVariable st varName item) body
      match r with
      | some v => .ok (some v, st1)
      | none => forEachLoop f st1 varName rest body
termination_by structural fuel

/-- The default-property evaluation loop of `Stmt::ClassDecl`. -/
def evalClassProps (fuel : Nat) (st : InterpState)
    (props : List (String × Expr)) (acc : Env) :
    Except Err (Env × InterpState) :=
  match fuel with
  | 0 => .error .fuel
  | f + 1 =>
    match props with
    | [] => .ok (acc, st)
    | (n, e) :: rest => do
      let (v, st1) ← evalExpr f st e
      evalClassProps f st1 rest (envInsert acc n v)
termination_by structural fuel

/-- `Interpreter::evaluate_expr`. -/
def evalExpr (fuel : Nat) (st : InterpState) (e : Expr) :
    Except Err (Value × InterpState) :=
  match fuel with
  | 0 => .error .fuel
  | f + 1 =>
    match e with
    | .literal lit => .ok (literalToValue lit, st)
    | .var name =>
      match getVariable st name with
      | .ok v => .ok (v, st)
      | .error m => .error (.e m)
    | .assign name value => do
      let (v, st1) ← evalExpr f st value
      .ok (v, setVariable st1 name v)
    | .propertyAssign object property value => do
      let (objVal, st1) ← evalExpr f st object
      let (v, st2) ← evalExpr f st1 value
      match objVal with
      | .object cn props =>
        if startsWithUnderscore property && !st2.inContext then
          .error (.e ("Cannot assign private property " ++ property ++
            " from outside class"))
        else
          let props1 := envInsert props property v
          let st3 :=
            match object with
            | .var vn => setVariable st2 vn (.object cn props1)
            | _ => st2
          .ok (v, st3)
      | _ => .error (.e ("Cannot assign property to " ++ objVal.typeName))
    | .binaryOp left operator right => do
      let (lv, st1) ← evalExpr f st left
      let (rv, st2) ← evalExpr f st1 right
      match applyBinaryOp lv operator rv with
      | .ok v => .ok (v, st2)
      | .error m => .error (.e m)
    | .unaryOp operator right => do
      let (v, st1) ← evalExpr f st right
      match applyUnaryOp operator v with
      | .ok w => .ok (w, st1)
      | .error m => .error (.e m)
    | .functionCall name args => callFunction f st name args
    | .lambda params body => .ok (.lambda params body (captureClosure st), st)
    | .matchE scrutinee cases => do
      let (v, st1) ← evalExpr f st scrutinee
      matchValue f st1 v cases
    | .array elements => do
      let (vs, st1) ← evalExprList f st elements
      .ok (.array vs, st1)
    | .newE className _ =>
      if startsWithUnderscore className && !st.inContext then
        .error (.e ("Cannot instantiate private class " ++ className ++
          " from outside context"))
      else
        match getVariable st className with
        | .ok (.classV _ parent _ properties) =>
          let objProps0 : Env :=
            match parent with
            | some (.classV _ _ _ parentProps) => parentProps
            | _ => []
          let objProps :=
            properties.foldl (fun acc kv => envInsert acc kv.1 kv.2) objProps0
          .ok (.object className objProps, st)
        | _ => .error (.e ("Class " ++ className ++ " not found"))
    | .propertyAccess object property => do
      let (objVal, st1) ← evalExpr f st object
      match objVal with
      | .object _ properties =>
        if startsWithUnderscore property && !st1.inContext then
          .error (.e ("Cannot access private property " ++ property ++
            " from outside class"))
        else
          match envGet properties property with
          | some v => .ok (v, st1)
          | none =>
            .error (.e ("Property " ++ property ++ " not found on object"))
      | _ =>
        .error (.e ("Cannot access property " ++ property ++ " on " ++
          objVal.typeName))
    | .methodCall object method args => do
      let (objVal, st1) ← evalExpr f st object
      match objVal with
      | .object cn props =>
        match getVariable st1 cn with
        | .ok (.classV _ _ methods _) =>
          match alistGet methods method with
          | some (params, body) =>
            let scope0 := envInsert [] "this" (.object cn props)
            let scope1 :=
              props.foldl (fun acc kv => envInsert acc kv.1 kv.2) scope0
            do
              let (scope2, st2) ← bindMethodParams f st1 scope1 params args
              let oldCtx := st2.inContext
              let st3 :=
                { st2 with scopes := scope2 :: st2.scopes, inContext := true }
              let (r, st4) ← runBody f st3 body
              let result := r.getD .null
              let st5 := { st4 with inContext := oldCtx }
              match st5.scopes with
              | updatedScope :: restScopes =>
                let st6 := { st5 with scopes := restScopes }
                let updatedProps := updatedScope.foldl
                  (fun acc kv =>
                    if kv.1 ≠ "this" ∧ kv.1 ∉ params then
                      envInsert acc kv.1 kv.2
                    else acc)
                  props
                let st7 :=
                  match object with
                  | .var vn => setVariable st6 vn (.object cn updatedProps)
                  | _ => st6
                .ok (result, st7)
              | [] =>
                -- models the `unwrap` panic; unreachable on every run in
                -- this development (scope pushes and pops are balanced)
                .error (.e "scope stack empty")
          | none =>
            .error (.e ("Method " ++ method ++ " not found on class " ++ cn))
        | _ => .error (.e ("Class " ++ cn ++ " not found"))
      | _ => .error (.e ("Cannot call method on " ++ objVal.typeName))
termination_by structural fuel

/-- The argument-binding loop of `Expr::MethodCall`: parameters without a
matching argument are bound to `Null`; surplus arguments are never used. -/
def bindMethodParams (fuel : Nat) (st : InterpState) (scope : Env)
    (params : List String) (args : List Expr) :
    Except Err (Env × InterpState) :=
  match fuel with
  | 0 => .error .fuel
  | f + 1 =>
    match params with
    | [] => .ok (scope, st)
    | p :: ps =>
      match args with
      | a :: rest => do
        let (v, st1) ← evalExpr f st a
        bindMethodParams f st1 (envInsert scope p v) ps rest
      | [] => bindMethodParams f st (envInsert scope p .null) ps []
termination_by structural fuel

/-- Sequential evaluation of an expression list (call arguments, array
elements). -/
def evalExprList (fuel : Nat) (st : InterpState) (es : List Expr) :
    Except Err (List Value × InterpState) :=
  match fuel with
  | 0 => .error .fuel
  | f + 1 =>
    match es with
    | [] => .ok ([], st)
    | e :: rest => do
      let (v, st1) ← evalExpr f st e
      let (vs, st2) ← evalExprList f st1 rest
      .ok (v :: vs, st2)
termination_by structural fuel

/-- `Interpreter::call_function`. -/
def callFunction (fuel : Nat) (st : InterpState) (name : String)
    (args : List Expr) : Except Err (Value × InterpState) :=
  match fuel with
  | 0 => .error .fuel
  | f + 1 =>
    if startsWithUnderscore name && !st.inContext then
      .error (.e ("Cannot call private function " ++ name ++
        " from outside context"))
    else if name == "map" && !args.isEmpty then callMapMethod f st args
    else do
      let (argValues, st1) ← evalExprList f st args
      match getVariable st1 name with
      | .error m => .error (.e m)
      | .ok func =>
        match func with
        | .function params body closure =>
          if params.length ≠ argValues.length then
            .error (.e ("Function " ++ name ++ " expects " ++
              toString params.length ++ " arguments, got " ++
              toString argValues.length))
          else do
            let st2 := closure.foldl (fun s kv => defineVariable s kv.1 kv.2)
              (pushScope st1)
            let st3 := (params.zip argValues).foldl
              (fun s pv => defineVariable s pv.1 pv.2) st2
            let oldCtx := st3.inContext
            let (r, st4) ← runBody f { st3 with inContext := true } body
            let result := r.getD .null
            .ok (result, popScope { st4 with inContext := oldCtx })
        | .lambda params body closure =>
          if params.length ≠ argValues.length then
            .error (.e ("Lambda expects " ++ toString params.length ++
              " arguments, got " ++ toString argValues.length))
          else do
            let st2 := closure.foldl (fun s kv => defineVariable s kv.1 kv.2)
              (pushScope st1)
            let st3 := (params.zip argValues).foldl
              (fun s pv => defineVariable s pv.1 pv.2) st2
            let oldCtx := st3.inContext
            let (v, st4) ← evalExpr f { st3 with inContext := true } body
            .ok (v, popScope { st4 with inContext := oldCtx })
        | .nativeFunction nname arity =>
          if arity ≠ argValues.length then
            .error (.e ("Native function " ++ nname ++ " expects " ++
              toString arity ++ " arguments, got " ++
              toString argValues.length))
          else
            match callBuiltin nname argValues with
            | .ok v => .ok (v, st1)
            | .error m => .error (.e m)
        | _ => .error (.e (name ++ " is not a function"))
termination_by structural fuel

/-- `Interpreter::call_map_method`. -/
def callMapMethod (fuel : Nat) (st : InterpState) (args : List Expr) :
    Except Err (Value × InterpState) :=
  match fuel with
  | 0 => .error .fuel
  | f + 1 =>
    match args with
    | [a0, a1] => do
      let (arrayVal, st1) ← evalExpr f st a0
      let (funcVal, st2) ← evalExpr f st1 a1
      match arrayVal with
      | .array arr => do
        let (vs, st3) ← mapLoop f st2 arr funcVal
        .ok (.array vs, st3)
      | _ => .error (.e ("map expects an array, got " ++ arrayVal.typeName))
    | _ =>
      .error (.e ("map expects 2 arguments (array, function), got " ++
        toString args.length))
termination_by structural fuel

/-- The element loop of `call_map_method`. -/
def mapLoop (fuel : Nat) (st : InterpState) (items : List Value)
    (funcVal : Value) : Except Err (List Value × InterpState) :=
  match fuel with
  | 0 => .error .fuel
  | f + 1 =>
    match items with
    | [] => .ok ([], st)
    | item :: rest =>
      match funcVal with
      | .lambda params body closure =>
        match params with
        | [p] => do
          let st1 := closure.foldl (fun s kv => defineVariable s kv.1 kv.2)
            (pushScope st)
          let (v, st2) ← evalExpr f (defineVariable st1 p item) body
          let (vs, st3) ← mapLoop f (popScope st2) rest funcVal
          .ok (v :: vs, st3)
        | _ => .error (.e "map callback expects 1 parameter")
      | _ => .error (.e "map expects a function as second argument")
termination_by structural fuel

/-- `Interpreter::match_value`. -/
def matchValue (fuel : Nat) (st : InterpState) (v : Value)
    (cases : List (Pattern × Expr)) : Except Err (Value × InterpState) :=
  match fuel with
  | 0 => .error .fuel
  | f + 1 =>
    match cases with
    | [] => .error (.e "No matching case found")
    | (pat, body) :: rest =>
      match patternMatches pat v with
      | .error m => .error (.e m)
      | .ok b => if b then evalExpr f st body else matchValue f st v rest

termination_by structural fuel
end

/-- `Interpreter::execute`: run every top-level statement. -/
def execProgram (fuel : Nat) (st : InterpState) : List Stmt →
    Except Err InterpState
  | [] => .ok st
  | s :: rest => do
    let (_, st1) ← execStmt fuel st s
    execProgram fuel st1 rest

/-- Run a program from a fresh interpreter, then evaluate one expression
(the REPL pattern: `execute` for the statements, `evaluate` for the final
bare expression). -/
def runThenEval (fuel : Nat) (stmts : List Stmt) (e : Expr) :
    Except Err Value :=
  match execProgram fuel initState stmts with
  | .error er => .error er
  | .ok st =>
    match evalExpr fuel st e with
    | .ok (v, _) => .ok v
    | .error er => .error er

/-! ### Tokens (`src/lexer/token.rs`) -/

/-- `TokenType` from token.rs (`String` is `stringLit`, keyword clashes get
a `T` suffix). -/
inductive TokenType where
  | number (s : String)
  | stringLit (s : String)
  | identifier (s : String)
  | trueT | falseT | nullT
  | funcT | returnT | matchT | caseT | ifT | elseT | whileT | forT | inT
  | classT | extendsT | newT
  | assign | plus | minus | star | slash | bang
  | equalEqual | notEqual | less | greater | lessEqual | greaterEqual
  | andOp | orOp | arrow
  | leftParen | rightParen | leftBrace | rightBrace
  | leftBracket | rightBracket
  | comma | colon | semicolon | dot
  | eof
deriving Repr

/-- `Token` from token.rs. -/
structure Token where
  tokenType : TokenType
  line : Nat
  column : Nat
deriving Repr

/-- Discriminant tag, to model `std::mem::discriminant` comparison. -/
def TokenType.tag : TokenType → Nat
  | .number _ => 0
  | .stringLit _ => 1
  | .identifier _ => 2
  | .trueT => 3
  | .falseT => 4
  | .nullT => 5
  | .funcT => 6
  | .returnT => 7
  | .matchT => 8
  | .caseT => 9
  | .ifT => 10
  | .elseT => 11
  | .whileT => 12
  | .forT => 13
  | .inT => 14
  | .classT => 15
  | .extendsT => 16
  | .newT => 17
  | .assign => 18
  | .plus => 19
  | .minus => 20
  | .star => 21
  | .slash => 22
  | .bang => 23
  | .equalEqual => 24
  | .notEqual => 25
  | .less => 26
  | .greater => 27
  | .lessEqual => 28
  | .greaterEqual => 29
  | .andOp => 30
  | .orOp => 31
  | .arrow => 32
  | .leftParen => 33
  | .rightParen => 34
  | .leftBrace => 35
  | .rightBrace => 36
  | .leftBracket => 37
  | .rightBracket => 38
  | .comma => 39
  | .colon => 40
  | .semicolon => 41
  | .dot => 42
  | .eof => 43

/-- `std::mem::discriminant` equality of token kinds. -/
def sameKind (a b : TokenType) : Bool := a.tag == b.tag

/-! ### Expression parser (`src/parser/mod.rs`)

The parser state is the cursor `current` (the token vector is immutable),
so each function maps a cursor to a result and a new cursor.  Only the
expression grammar is embedded — the claims under study concern expression
parsing, and none of the statement-level productions feed back into it. -/

/-- `Parser::peek`: `&self.tokens[self.current]`.  Out-of-range access (a
panic in Rust, impossible on an `Eof`-terminated stream) yields `Eof`. -/
def peek (ts : List Token) (cur : Nat) : Token :=
  ts.getD cur ⟨.eof, 0, 0⟩

/-- `Parser::is_at_end`. -/
def isAtEnd (ts : List Token) (cur : Nat) : Bool :=
  sameKind (peek ts cur).tokenType .eof

/-- `Parser::advance` (the cursor part; the returned `previous` token is
read through `peek` by each caller that needs it). -/
def advance (ts : List Token) (cur : Nat) : Nat :=
  if isAtEnd ts cur then cur else cur + 1

/-- `Parser::check`. -/
def checkTok (ts : List Token) (cur : Nat) (t : TokenType) : Bool :=
  if isAtEnd ts cur then false else sameKind (peek ts cur).tokenType t

/-- `Parser::match_token`: on success also returns the matched token (what
`previous()` yields after the advance). -/
def matchTokenL (ts : List Token) (cur : Nat) : List TokenType →
    Option (Token × Nat)
  | [] => none
  | t :: rest =>
    if checkTok ts cur t then some (peek ts cur, advance ts cur)
    else matchTokenL ts cur rest

/-- `Parser::consume`. -/
def consume (ts : List Token) (cur : Nat) (t : TokenType) (msg : String) :
    Except Err Nat :=
  if checkTok ts cur t then .ok (advance ts cur)
  else
    .error (.e (msg ++ " at line " ++ toString (peek ts cur).line ++
      ", column " ++ toString (peek ts cur).column))

/-- `Parser::match_pattern`. -/
def matchPattern (ts : List Token) (cur : Nat) : Except Err (Pattern × Nat) :=
  match (peek ts cur).tokenType with
  | .stringLit s => .ok (.literal (.str s), advance ts cur)
  | .number s =>
    match parseDecimal s with
    | some n => .ok (.literal (.number n), advance ts cur)
    | none => .error (.e "Invalid number")
  | .trueT => .ok (.literal (.boolean true), advance ts cur)
  | .falseT => .ok (.literal (.boolean false), advance ts cur)
  | .identifier id =>
    if id = "_" then .ok (.wildcard, advance ts cur)
    else .ok (.identifier id, advance ts cur)
  | _ =>
    .error (.e ("Invalid pattern at line " ++ toString (peek ts cur).line))

mutual

/-- `Parser::expression`. -/
def pExpression (fuel : Nat) (ts : List Token) (cur : Nat) :
    Except Err (Expr × Nat) :=
  match fuel with
  | 0 => .error .fuel
  | f + 1 => pAssignment f ts cur
termination_by structural fuel

/-- `Parser::assignment`. -/
def pAssignment (fuel : Nat) (ts : List Token) (cur : Nat) :
    Except Err (Expr × Nat) :=
  match fuel with
  | 0 => .error .fuel
  | f + 1 => do
    let (expr, c1) ← pOr f ts cur
    match matchTokenL ts c1 [.assign] with
    | some (_, c2) => do
      let (value, c3) ← pAssignment f ts c2
      match expr with
      | .var name => .ok (.assign name value, c3)
      | .propertyAccess object property =>
        .ok (.propertyAssign object property value, c3)
      | _ => .error (.e "Invalid assignment target")
    | none => .ok (expr, c1)
termination_by structural fuel

/-- `Parser::or`. -/
def pOr (fuel : Nat) (ts : List Token) (cur : Nat) :
    Except Err (Expr × Nat) :=
  match fuel with
  | 0 => .error .fuel
  | f + 1 => do
    let (e, c1) ← pAnd f ts cur
    pOrLoop f ts c1 e
termination_by structural fuel

/-- The `while` loop of `Parser::or`. -/
def pOrLoop (fuel : Nat) (ts : List Token) (cur : Nat) (e : Expr) :
    Except Err (Expr × Nat) :=
  match fuel with
  | 0 => .error .fuel
  | f + 1 =>
    match matchTokenL ts cur [.orOp] with
    | some (_, c1) => do
      let (r, c2) ← pAnd f ts c1
      pOrLoop f ts c2 (.binaryOp e .or r)
    | none => .ok (e, cur)
termination_by structural fuel

/-- `Parser::and`. -/
def pAnd (fuel : Nat) (ts : List Token) (cur : Nat) :
    Except Err (Expr × Nat) :=
  match fuel with
  | 0 => .error .fuel
  | f + 1 => do
    let (e, c1) ← pEquality f ts cur
    pAndLoop f ts c1 e
termination_by structural fuel

/-- The `while` loop of `Parser::and`. -/
def pAndLoop (fuel : Nat) (ts : List Token) (cur : Nat) (e : Expr) :
    Except Err (Expr × Nat) :=
  match fuel with
  | 0 => .error .fuel
  | f + 1 =>
    match matchTokenL ts cur [.andOp] with
    | some (_, c1) => do
      let (r, c2) ← pEquality f ts c1
      pAndLoop f ts c2 (.binaryOp e .and r)
    | none => .ok (e, cur)
termination_by structural fuel

/-- `Parser::equality`. -/
def pEquality (fuel : Nat) (ts : List Token) (cur : Nat) :
    Except Err (Expr × Nat) :=
  match fuel with
  | 0 => .error .fuel
  | f + 1 => do
    let (e, c1) ← pComparison f ts cur
    pEqualityLoop f ts c1 e
termination_by structural fuel

/-- The `while` loop of `Parser::equality`. -/
def pEqualityLoop (fuel : Nat) (ts : List Token) (cur : Nat) (e : Expr) :
    Except Err (Expr × Nat) :=
  match fuel with
  | 0 => .error .fuel
  | f + 1 =>
    match matchTokenL ts cur [.equalEqual, .notEqual] with
    | some (tok, c1) =>
      let operator : BinaryOp :=
        match tok.tokenType with
        | .equalEqual => .equal
        | _ => .notEqual
      do
        let (r, c2) ← pComparison f ts c1
        pEqualityLoop f ts c2 (.binaryOp e operator r)
    | none => .ok (e, cur)
termination_by structural fuel

/-- `Parser::comparison`. -/
def pComparison (fuel : Nat) (ts : List Token) (cur : Nat) :
    Except Err (Expr × Nat) :=
  match fuel with
  | 0 => .error .fuel
  | f + 1 => do
    let (e, c1) ← pTerm f ts cur
    pComparisonLoop f ts c1 e
termination_by structural fuel

/-- The `while` loop of `Parser::comparison`. -/
def pComparisonLoop (fuel : Nat) (ts : List Token) (cur : Nat) (e : Expr) :
    Except Err (Expr × Nat) :=
  match fuel with
  | 0 => .error .fuel
  | f + 1 =>
    match matchTokenL ts cur [.greater, .greaterEqual, .less, .lessEqual] with
    | some (tok, c1) =>
      let operator : BinaryOp :=
        match tok.tokenType with
        | .greater => .greater
        | .greaterEqual => .greaterEqual
        | .less => .less
        | _ => .lessEqual
      do
        let (r, c2) ← pTerm f ts c1
        pComparisonLoop f ts c2 (.binaryOp e operator r)
    | none => .ok (e, cur)
termination_by structural fuel

/-- `Parser::term`. -/
def pTerm (fuel : Nat) (ts : List Token) (cur : Nat) :
    Except Err (Expr × Nat) :=
  match fuel with
  | 0 => .error .fuel
  | f + 1 => do
    let (e, c1) ← pFactor f ts cur
    pTermLoop f ts c1 e
termination_by structural fuel

/-- The `while` loop of `Parser::term`. -/
def pTermLoop (fuel : Nat) (ts : List Token) (cur : Nat) (e : Expr) :
    Except Err (Expr × Nat) :=
  match fuel with
  | 0 => .error .fuel
  | f + 1 =>
    match matchTokenL ts cur [.plus, .minus] with
    | some (tok, c1) =>
      let operator : BinaryOp :=
        match tok.tokenType with
        | .plus => .add
        | _ => .subtract
      do
        let (r, c2) ← pFactor f ts c1
        pTermLoop f ts c2 (.binaryOp e operator r)
    | none => .ok (e, cur)
termination_by structural fuel

/-- `Parser::factor`. -/
def pFactor (fuel : Nat) (ts : List Token) (cur : Nat) :
    Except Err (Expr × Nat) :=
  match fuel with
  | 0 => .error .fuel
  | f + 1 => do
    let (e, c1) ← pUnary f ts cur
    pFactorLoop f ts c1 e
termination_by structural fuel

/-- The `while` loop of `Parser::factor`. -/
def pFactorLoop (fuel : Nat) (ts : List Token) (cur : Nat) (e : Expr) :
    Except Err (Expr × Nat) :=
  match fuel with
  | 0 => .error .fuel
  | f + 1 =>
    match matchTokenL ts cur [.star, .slash] with
    | some (tok, c1) =>
      let operator : BinaryOp :=
        match tok.tokenType with
        | .star => .multiply
        | _ => .divide
      do
        let (r, c2) ← pUnary f ts c1
        pFactorLoop f ts c2 (.binaryOp e operator r)
    | none => .ok (e, cur)
termination_by structural fuel

/-- `Parser::unary`. -/
def pUnary (fuel : Nat) (ts : List Token) (cur : Nat) :
    Except Err (Expr × Nat) :=
  match fuel with
  | 0 => .error .fuel
  | f + 1 =>
    match matchTokenL ts cur [.bang, .minus] with
    | some (tok, c1) =>
      let operator : UnaryOp :=
        match tok.tokenType with
        | .bang => .not
        | _ => .negate
      do
        let (r, c2) ← pUnary f ts c1
        .ok (.unaryOp operator r, c2)
    | none => pCall f ts cur
termination_by structural fuel

/-- `Parser::call`. -/
def pCall (fuel : Nat) (ts : List Token) (cur : Nat) :
    Except Err (Expr × Nat) :=
  match fuel with
  | 0 => .error .fuel
  | f + 1 => do
    let (e, c1) ← pPrimary f ts cur
    pCallLoop f ts c1 e
termination_by structural fuel

/-- The postfix call/member loop of `Parser::call`. -/
def pCallLoop (fuel : Nat) (ts : List Token) (cur : Nat) (e : Expr) :
    Except Err (Expr × Nat) :=
  match fuel with
  | 0 => .error .fuel
  | f + 1 =>
    match matchTokenL ts cur [.leftParen] with
    | some (_, c1) => do
      let (e2, c2) ← pFinishCall f ts c1 e
      pCallLoop f ts c2 e2
    | none =>
      match matchTokenL ts cur [.dot] with
      | some (_, c1) =>
        match (peek ts c1).tokenType with
        | .identifier memberName =>
          let c2 := advance ts c1
          match matchTokenL ts c2 [.leftParen] with
          | some (_, c3) => do
            let (args, c4) ←
              if checkTok ts c3 .rightParen then .ok ([], c3)
              else pExprCommaList f ts c3
            let c5 ← consume ts c4 .rightParen "Expected ) after arguments"
            pCallLoop f ts c5 (.methodCall e memberName args)
          | none => pCallLoop f ts c2 (.propertyAccess e memberName)
        | _ =>
          .error (.e ("Expected property or method name after . at line " ++
            toString (peek ts c1).line))
      | none => .ok (e, cur)
termination_by structural fuel

/-- `Parser::finish_call` (cursor already past the `(`). -/
def pFinishCall (fuel : Nat) (ts : List Token) (cur : Nat) (callee : Expr) :
    Except Err (Expr × Nat) :=
  match fuel with
  | 0 => .error .fuel
  | f + 1 => do
    let (args, c1) ←
      if checkTok ts cur .rightParen then .ok ([], cur)
      else pExprCommaList f ts cur
    let c2 ← consume ts c1 .rightParen "Expected ) after arguments"
    match callee with
    | .var name => .ok (.functionCall name args, c2)
    | _ => .error (.e "Invalid function call")
termination_by structural fuel

/-- The comma-separated expression list loop shared by argument lists and
array elements (`loop { expr; if !match(Comma) break }`). -/
def pExprCommaList (fuel : Nat) (ts : List Token) (cur : Nat) :
    Except Err (List Expr × Nat) :=
  match fuel with
  | 0 => .error .fuel
  | f + 1 => do
    let (e, c1) ← pExpression f ts cur
    match matchTokenL ts c1 [.comma] with
    | some (_, c2) => do
      let (rest, c3) ← pExprCommaList f ts c2
      .ok (e :: rest, c3)
    | none => .ok ([e], c1)
termination_by structural fuel

/-- `Parser::primary`. -/
def pPrimary (fuel : Nat) (ts : List Token) (cur : Nat) :
    Except Err (Expr × Nat) :=
  match fuel with
  | 0 => .error .fuel
  | f + 1 =>
    match (peek ts cur).tokenType with
    | .trueT => .ok (.literal (.boolean true), advance ts cur)
    | .falseT => .ok (.literal (.boolean false), advance ts cur)
    | .nullT => .ok (.literal .null, advance ts cur)
    | .number s =>
      match parseDecimal s with
      | some n => .ok (.literal (.number n), advance ts cur)
      | none => .error (.e "Invalid number")
    | .stringLit s => .ok (.literal (.str s), advance ts cur)
    | .newT =>
      let c1 := advance ts cur
      match (peek ts c1).tokenType with
      | .identifier className =>
        let c2 := advance ts c1
        do
          let c3 ← consume ts c2 .leftParen "Expected ( after class name"
          let (args, c4) ←
            if checkTok ts c3 .rightParen then .ok ([], c3)
            else pExprCommaList f ts c3
          let c5 ← consume ts c4 .rightParen "Expected ) after arguments"
          .ok (.newE className args, c5)
      | _ =>
        .error (.e ("Expected class name after new at line " ++
          toString (peek ts c1).line))
    | .identifier name => .ok (.var name, advance ts cur)
    | .leftParen => pParen f ts (advance ts cur)
    | .leftBracket =>
      let c1 := advance ts cur
      do
        let (elements, c2) ←
          if checkTok ts c1 .rightBracket then .ok ([], c1)
          else pExprCommaList f ts c1
        let c3 ← consume ts c2 .rightBracket "Expected ] after array elements"
        .ok (.array elements, c3)
    | .matchT =>
      let c1 := advance ts cur
      do
        let c2 ← consume ts c1 .leftParen "Expected ( after match"
        let (scrutinee, c3) ← pExpression f ts c2
        let c4 ← consume ts c3 .rightParen "Expected ) after match expression"
        let c5 ← consume ts c4 .leftBrace "Expected \x7b before match cases"
        let (cases, c6) ← pMatchCases f ts c5
        let c7 ← consume ts c6 .rightBrace "Expected \x7d after match cases"
        .ok (.matchE scrutinee cases, c7)
    | _ =>
      .error (.e ("Unexpected token at line " ++
        toString (peek ts cur).line ++ ", column " ++
        toString (peek ts cur).column))
termination_by structural fuel

/-- The `LeftParen` branch of `Parser::primary`, entered with the cursor
just past the `(`.  On an identifier it speculatively reads a lambda
parameter list; when no `)` `=>` follows, the source rewinds to
`start_pos - 1` — the position of the `(` itself — before parsing the
grouped expression. -/
def pParen (fuel : Nat) (ts : List Token) (cur : Nat) :
    Except Err (Expr × Nat) :=
  match fuel with
  | 0 => .error .fuel
  | f + 1 =>
    match (peek ts cur).tokenType with
    | .identifier _ => do
      let (params, c2) ← pLambdaParams f ts cur []
      if checkTok ts c2 .rightParen then
        let c3 := advance ts c2
        match matchTokenL ts c3 [.arrow] with
        | some (_, c4) => do
          let (body, c5) ← pExpression f ts c4
          .ok (.lambda params body, c5)
        | none => pGrouped f ts (cur - 1)
      else pGrouped f ts (cur - 1)
    | _ => pGrouped f ts cur
termination_by structural fuel

/-- The shared grouped-expression tail of the `LeftParen` branch:
`expression` then a required `)`. -/
def pGrouped (fuel : Nat) (ts : List Token) (cur : Nat) :
    Except Err (Expr × Nat) :=
  match fuel with
  | 0 => .error .fuel
  | f + 1 => do
    let (e, c1) ← pExpression f ts cur
    let c2 ← consume ts c1 .rightParen "Expected ) after expression"
    .ok (e, c2)
termination_by structural fuel

/-- The speculative lambda-parameter loop of `Parser::primary`. -/
def pLambdaParams (fuel : Nat) (ts : List Token) (cur : Nat)
    (acc : List String) : Except Err (List String × Nat) :=
  match fuel with
  | 0 => .error .fuel
  | f + 1 =>
    match (peek ts cur).tokenType with
    | .identifier id =>
      let c1 := advance ts cur
      match matchTokenL ts c1 [.comma] with
      | some (_, c2) => pLambdaParams f ts c2 (acc ++ [id])
      | none => .ok (acc ++ [id], c1)
    | _ => .ok (acc, cur)
termination_by structural fuel

/-- The `while self.match_token(Case)` loop of the `Match` branch of
`Parser::primary`. -/
def pMatchCases (fuel : Nat) (ts : List Token) (cur : Nat) :
    Except Err (List (Pattern × Expr) × Nat) :=
  match fuel with
  | 0 => .error .fuel
  | f + 1 =>
    match matchTokenL ts cur [.caseT] with
    | some (_, c1) => do
      let (pattern, c2) ← matchPattern ts c1
      let c3 ← consume ts c2 .arrow "Expected => after case pattern"
      let (body, c4) ← pExpression f ts c3
      let (rest, c5) ← pMatchCases f ts c4
      .ok ((pattern, body) :: rest, c5)
    | none => .ok ([], cur)
termination_by structural fuel

end

/-! ### Concrete programs and token streams used by the theorems -/

/-- The spec's closure example: `a = 1; f = () => a; a = 2;`. -/
def progC1 : List Stmt :=
  [.varDecl "a" (.literal (.number 1)),
   .varDecl "f" (.lambda [] (.var "a")),
   .varDecl "a" (.literal (.number 2))]

/-- The closure example moved inside a function body, where `a` and `f`
live in a scope frame rather than in globals. -/
def progC1nested : List Stmt :=
  [.funcDecl "g" [] none
    [.varDecl "a" (.literal (.number 1)),
     .varDecl "f" (.lambda [] (.var "a")),
     .varDecl "a" (.literal (.number 2)),
     .ret (some (.functionCall "f" []))]]

/-- `class C { x = 0  func setx() { this.x = 5 }  func setx2() { x = 5 } }
b = new C(); b.setx()`. -/
def progC3this : List Stmt :=
  [.classDecl "C" none
     [("setx", [], none,
       [.exprStmt (.propertyAssign (.var "this") "x" (.literal (.number 5)))]),
      ("setx2", [], none,
       [.varDecl "x" (.literal (.number 5))])]
     [("x", .literal (.number 0))],
   .varDecl "b" (.newE "C" []),
   .exprStmt (.methodCall (.var "b") "setx" [])]

/-- Same class, but the call is `b.setx2()` (a plain `x = 5` assignment). -/
def progC3loose : List Stmt :=
  [.classDecl "C" none
     [("setx", [], none,
       [.exprStmt (.propertyAssign (.var "this") "x" (.literal (.number 5)))]),
      ("setx2", [], none,
       [.varDecl "x" (.literal (.number 5))])]
     [("x", .literal (.number 0))],
   .varDecl "b" (.newE "C" []),
   .exprStmt (.methodCall (.var "b") "setx2" [])]

/-- `v = 1; class C { x = v }; v = 2; c = new C()`. -/
def progC4 : List Stmt :=
  [.varDecl "v" (.literal (.number 1)),
   .classDecl "C" none [] [("x", .var "v")],
   .varDecl "v" (.literal (.number 2)),
   .varDecl "c" (.newE "C" [])]

/-- `class A { x = 1 }; class B extends A { y = 2 }; b = new B()`. -/
def progC4inherit : List Stmt :=
  [.classDecl "A" none [] [("x", .literal (.number 1))],
   .classDecl "B" (some "A") [] [("y", .literal (.number 2))],
   .varDecl "b" (.newE "B" [])]

/-- `_secret = 1;`. -/
def progC5 : List Stmt := [.varDecl "_secret" (.literal (.number 1))]

/-- `_secret = 1; func getSecret() { return _secret }`. -/
def progC5fn : List Stmt :=
  [.varDecl "_secret" (.literal (.number 1)),
   .funcDecl "getSecret" [] none [.ret (some (.var "_secret"))]]

/-- `func _h() { return 1 }`. -/
def progC5priv : List Stmt :=
  [.funcDecl "_h" [] none [.ret (some (.literal (.number 1)))]]

/-- `class C { func m(p) { return p } }; b = new C();
r = b.m(7, x = 99)` — the second argument is a surplus argument whose
evaluation would define a global `x`. -/
def progC9 : List Stmt :=
  [.classDecl "C" none
     [("m", ["p"], none, [.ret (some (.var "p"))])] [],
   .varDecl "b" (.newE "C" []),
   .varDecl "r" (.methodCall (.var "b") "m"
      [.literal (.number 7), .assign "x" (.literal (.number 99))])]

/-- `func g(p) { return p }`. -/
def progC9fn : List Stmt :=
  [.funcDecl "g" ["p"] none [.ret (some (.var "p"))]]

/-- `for (x in [1, 2, 3]) null;` at top level. -/
def progC10 : List Stmt :=
  [.forEach "x"
     (.array [.literal (.number 1), .literal (.number 2), .literal (.number 3)])
     (.exprStmt (.literal .null))]

/-- The same foreach inside a block, so the loop variable lands in the
block's scope frame. -/
def progC10block : List Stmt :=
  [.block
     [.forEach "x"
        (.array [.literal (.number 1), .literal (.number 2),
                 .literal (.number 3)])
        (.exprStmt (.literal .null))]]

/-- Token stream of `(a)`. -/
def tsGroupA : List Token :=
  [⟨.leftParen, 1, 1⟩, ⟨.identifier "a", 1, 2⟩, ⟨.rightParen, 1, 3⟩,
   ⟨.eof, 1, 4⟩]

/-- Token stream of `(a + b)`. -/
def tsGroupAB : List Token :=
  [⟨.leftParen, 1, 1⟩, ⟨.identifier "a", 1, 2⟩, ⟨.plus, 1, 4⟩,
   ⟨.identifier "b", 1, 6⟩, ⟨.rightParen, 1, 7⟩, ⟨.eof, 1, 8⟩]

/-- Token stream of `(a, b) => a + b`. -/
def tsLambda : List Token :=
  [⟨.leftParen, 1, 1⟩, ⟨.identifier "a", 1, 2⟩, ⟨.comma, 1, 3⟩,
   ⟨.identifier "b", 1, 5⟩, ⟨.rightParen, 1, 6⟩, ⟨.arrow, 1, 8⟩,
   ⟨.identifier "a", 1, 11⟩, ⟨.plus, 1, 13⟩, ⟨.identifier "b", 1, 15⟩,
   ⟨.eof, 1, 16⟩]

/-! ### Helper lemmas -/

/-- Bind on a successful `Except` computation. -/
theorem exceptOkBind {ε α β : Type} (a : α) (f : α → Except ε β) :
    (Except.ok a : Except ε α) >>= f = f a := rfl

/-- Bind on a failed `Except` computation. -/
theorem exceptErrorBind {ε α β : Type} (er : ε) (f : α → Except ε β) :
    (Except.error er : Except ε α) >>= f = Except.error er := rfl

/-- One round of the parser's `( expr` cycle on the tokens of `(a)`: the
speculative lambda parse fails at the missing `=>`, the cursor is rewound
to `start_pos - 1` — the `(` itself — and `expression` restarts there with
13 units less fuel, so fuel exhaustion is preserved. -/
theorem c2StepA (m : Nat) (h : pExpression m tsGroupA 0 = .error .fuel) :
    pExpression (m + 13) tsGroupA 0 = .error .fuel := by
  simp only [tsGroupA] at h
  rw [pExpression, pAssignment, pOr, pAnd, pEquality, pComparison, pTerm,
    pFactor, pUnary, pCall, pPrimary]
  simp [pParen, pGrouped, pLambdaParams, peek, advance, checkTok, isAtEnd,
    matchTokenL, sameKind, TokenType.tag, consume, tsGroupA, h,
    exceptOkBind, exceptErrorBind]

/-- The same cycle on the tokens of `(a + b)`: speculation stops at `+`
(not `)`), the cursor is rewound to the `(`, and `expression` restarts. -/
theorem c2StepAB (m : Nat) (h : pExpression m tsGroupAB 0 = .error .fuel) :
    pExpression (m + 13) tsGroupAB 0 = .error .fuel := by
  simp only [tsGroupAB] at h
  rw [pExpression, pAssignment, pOr, pAnd, pEquality, pComparison, pTerm,
    pFactor, pUnary, pCall, pPrimary]
  simp [pParen, pGrouped, pLambdaParams, peek, advance, checkTok, isAtEnd,
    matchTokenL, sameKind, TokenType.tag, consume, tsGroupAB, h,
    exceptOkBind, exceptErrorBind]

/-- Parsing `(a)` exhausts every fuel bound: the source parser never
terminates on this input. -/
theorem c2NontermA : ∀ n, pExpression n tsGroupA 0 = .error .fuel := by
  intro n
  induction n using Nat.strong_induction_on with
  | _ n ih =>
    rcases Nat.lt_or_ge n 13 with h13 | h13
    · interval_cases n <;> rfl
    · obtain ⟨m, rfl⟩ : ∃ m, n = m + 13 := ⟨n - 13, by omega⟩
      exact c2StepA m (ih m (by omega))

/-- Parsing `(a + b)` exhausts every fuel bound as well. -/
theorem c2NontermAB : ∀ n, pExpression n tsGroupAB 0 = .error .fuel := by
  intro n
  induction n using Nat.strong_induction_on with
  | _ n ih =>
    rcases Nat.lt_or_ge n 13 with h13 | h13
    · interval_cases n <;> rfl
    · obtain ⟨m, rfl⟩ : ∃ m, n = m + 13 := ⟨n - 13, by omega⟩
      exact c2StepAB m (ih m (by omega))

/-! ### Claim theorems -/

/-- Claim C1, counterexample: for the very program of the claim —
`a = 1; f = () => a; a = 2;` — the call `f()` evaluates to `Number(2)` and
not to `Number(1)`.  Top-level bindings live in `globals`, and
`capture_closure` flattens only the scope-frame stack, so the lambda
captures nothing and reads `a` live from globals at call time. -/
theorem C1_counterexample :
    runThenEval 100 progC1 (.functionCall "f" []) = .ok (.number 2) ∧
    runThenEval 100 progC1 (.functionCall "f" []) ≠ .ok (.number 1) := by
  refine ⟨rfl, ?_⟩
  intro hc
  rw [show runThenEval 100 progC1 (.functionCall "f" []) = .ok (.number 2)
    from rfl] at hc
  have h1 := Except.ok.inj hc
  have h2 := Value.number.inj h1
  norm_num at h2

/-- Claim C1, amended: a Function/Lambda value snapshots by value exactly
the bindings of the active scope-frame stack (inner frames overriding
outer); globals are not captured and are read live at call time.  A later
mutation of a captured frame binding is invisible to a later call (the
nested program returns `1`), but the claim's own top-level program returns
`2` because its `a` lives in globals. -/
theorem C1_amended :
    runThenEval 100 progC1nested (.functionCall "g" []) = .ok (.number 1) ∧
    runThenEval 100 progC1 (.functionCall "f" []) = .ok (.number 2) ∧
    (∀ (g1 g2 : Env) (scopes : List Env) (ctx1 ctx2 : Bool),
      captureClosure ⟨g1, scopes, ctx1⟩ = captureClosure ⟨g2, scopes, ctx2⟩) :=
  ⟨rfl, rfl, fun _ _ _ _ _ => rfl⟩

/-- Claim C2: `(a, b) => a + b` does parse to the 2-parameter Lambda, but
after a failed speculative lambda parse the cursor is restored to
`start_pos - 1`, i.e. to the `(` itself rather than to just after it, so
`primary` re-enters the grouped-expression parse at the `(` forever:
parsing `(a)` or `(a + b)` never terminates (fuel exhaustion at every
bound; a stack overflow in the Rust source), instead of yielding the
grouped `Variable`/`BinaryOp` the claim describes. -/
theorem C2_theorem :
    (∀ n, pExpression n tsGroupA 0 = .error .fuel) ∧
    (∀ n, pExpression n tsGroupAB 0 = .error .fuel) ∧
    pExpression 40 tsLambda 0 =
      .ok (.lambda ["a", "b"] (.binaryOp (.var "a") .add (.var "b")), 9) :=
  ⟨c2NontermA, c2NontermAB, rfl⟩

/-- Claim C3, counterexample: in `class C { x = 0  func setx() {
this.x = 5 } }`, after `b = new C(); b.setx()` the read `b.x` yields
`Number(0)`, not `Number(5)`: the assignment `this.x = 5` only rebinds
`this` inside the call scope, and the fold-back skips `"this"`. -/
theorem C3_counterexample :
    runThenEval 100 progC3this (.propertyAccess (.var "b") "x") =
      .ok (.number 0) ∧
    runThenEval 100 progC3this (.propertyAccess (.var "b") "x") ≠
      .ok (.number 5) := by
  refine ⟨rfl, ?_⟩
  intro hc
  rw [show runThenEval 100 progC3this (.propertyAccess (.var "b") "x") =
    .ok (.number 0) from rfl] at hc
  have h1 := Except.ok.inj hc
  have h2 := Value.number.inj h1
  norm_num at h2

/-- Claim C3, amended: on return from a method called on a simple-variable
receiver, every binding in the call scope except `this` and the declared
parameters is folded back into a copy of the receiver's property map and
the variable is rebound — so a plain `field = v` assignment to the loose
property binding durably mutates the receiver (`b.x` reads `5`), while
`this.field = v` only rebinds `this` in the call scope, is excluded from
the fold-back, and does not persist (`b.x` still reads `0`). -/
theorem C3_amended :
    runThenEval 100 progC3loose (.propertyAccess (.var "b") "x") =
      .ok (.number 5) ∧
    runThenEval 100 progC3this (.propertyAccess (.var "b") "x") =
      .ok (.number 0) :=
  ⟨rfl, rfl⟩

/-- Claim C4, counterexample: with `v = 1; class C { x = v }; v = 2;
c = new C()`, the read `c.x` yields `Number(1)` — the default expression
was evaluated at class declaration, not freshly at construction (fresh
evaluation would have seen `v = 2`). -/
theorem C4_counterexample :
    runThenEval 100 progC4 (.propertyAccess (.var "c") "x") =
      .ok (.number 1) ∧
    runThenEval 100 progC4 (.propertyAccess (.var "c") "x") ≠
      .ok (.number 2) := by
  refine ⟨rfl, ?_⟩
  intro hc
  rw [show runThenEval 100 progC4 (.propertyAccess (.var "c") "x") =
    .ok (.number 1) from rfl] at hc
  have h1 := Except.ok.inj hc
  have h2 := Value.number.inj h1
  norm_num at h2

/-- Claim C4, amended: each class-level default-property expression is
evaluated exactly once, when the class declaration executes; `new C()`
copies the stored values, seeding from the parent's stored defaults first
and overlaying the class's own (so a mutation of a variable read by a
default, occurring between declaration and construction, is not
reflected).  The parent-then-own overlay is as claimed: `new B()` carries
`{x: 1, y: 2}`. -/
theorem C4_amended :
    runThenEval 100 progC4 (.propertyAccess (.var "c") "x") =
      .ok (.number 1) ∧
    runThenEval 100 progC4inherit (.propertyAccess (.var "b") "x") =
      .ok (.number 1) ∧
    runThenEval 100 progC4inherit (.propertyAccess (.var "b") "y") =
      .ok (.number 2) :=
  ⟨rfl, rfl, rfl⟩

/-- Claim C5, counterexample: after `_secret = 1;` at top level, the bare
variable read `_secret` evaluated at top level (context flag unset)
succeeds with `Number(1)` — it is not a PrivateAccessViolation, because
`get_variable` performs no privacy check. -/
theorem C5_counterexample :
    runThenEval 100 progC5 (.var "_secret") = .ok (.number 1) ∧
    ∀ msg, runThenEval 100 progC5 (.var "_secret") ≠ .error (.e msg) := by
  refine ⟨rfl, ?_⟩
  intro msg hc
  rw [show runThenEval 100 progC5 (.var "_secret") = .ok (.number 1)
    from rfl] at hc
  exact Except.noConfusion hc

/-- Claim C5, amended: bare variable reads are never privacy-checked —
after `_secret = 1;`, reading `_secret` returns `Number(1)` both at top
level and from inside a function body.  The PrivateAccessViolation
rejection gates only object-property access, private function calls and
private class instantiation; e.g. calling a private function at top level
is rejected. -/
theorem C5_amended :
    runThenEval 100 progC5 (.var "_secret") = .ok (.number 1) ∧
    runThenEval 100 progC5fn (.functionCall "getSecret" []) =
      .ok (.number 1) ∧
    runThenEval 100 progC5priv (.functionCall "_h" []) =
      .error (.e "Cannot call private function _h from outside context") :=
  ⟨rfl, rfl, rfl⟩

/-- Claim C6, counterexample: two Arrays with equal element sequences do
not compare equal — `[1] == [1]` evaluates to `Boolean(false)`, because
`values_equal` has no Array case and falls through to `false`. -/
theorem C6_counterexample :
    applyBinaryOp (.array [.number 1]) .equal (.array [.number 1]) =
      .ok (.boolean false) ∧
    applyBinaryOp (.array [.number 1]) .equal (.array [.number 1]) ≠
      .ok (.boolean true) := by
  refine ⟨rfl, ?_⟩
  intro hc
  rw [show applyBinaryOp (.array [.number 1]) .equal (.array [.number 1]) =
    .ok (.boolean false) from rfl] at hc
  have h1 := Except.ok.inj hc
  have h2 := Value.boolean.inj h1
  exact Bool.noConfusion h2

/-- Claim C6, amended: `==` never errors and returns `Boolean(true)`
exactly when the two values are the same scalar variant — Number, String,
Boolean or Null — with equal content; every other pair, including two
Arrays with equal element sequences and any Function/Class/Object pair,
yields `Boolean(false)`; `!=` is its negation. -/
theorem C6_amended :
    ∀ a b : Value,
      applyBinaryOp a .equal b = .ok (.boolean (valuesEqual a b)) ∧
      applyBinaryOp a .notEqual b = .ok (.boolean (!valuesEqual a b)) ∧
      (valuesEqual a b = true ↔
        ((∃ n, a = .number n ∧ b = .number n) ∨
         (∃ s, a = .str s ∧ b = .str s) ∨
         (∃ x, a = .boolean x ∧ b = .boolean x) ∨
         (a = .null ∧ b = .null))) := by
  intro a b
  refine ⟨rfl, rfl, ?_⟩
  cases a <;> cases b <;> simp [valuesEqual] <;> exact eq_comm

/-- Claim C7: `&&` and `||` are eager — whenever the left operand
evaluates (with its state effects) and then the right operand evaluates
(with its state effects), the whole expression evaluates both and returns
the Boolean combination of their truthiness; and truthiness is exactly as
claimed: `Null`, `false`, numeric zero, the empty string and the empty
array are the only falsy values. -/
theorem C7_theorem :
    (∀ (f : Nat) (st st1 st2 : InterpState) (l r : Expr) (v1 v2 : Value),
      evalExpr f st l = .ok (v1, st1) →
      evalExpr f st1 r = .ok (v2, st2) →
      evalExpr (f + 1) st (.binaryOp l .and r) =
        .ok (.boolean (v1.isTruthy && v2.isTruthy), st2) ∧
      evalExpr (f + 1) st (.binaryOp l .or r) =
        .ok (.boolean (v1.isTruthy || v2.isTruthy), st2)) ∧
    (∀ v : Value, v.isTruthy = false ↔
      (v = .null ∨ v = .boolean false ∨ v = .number 0 ∨ v = .str "" ∨
       v = .array [])) := by
  constructor
  · intro f st st1 st2 l r v1 v2 h1 h2
    constructor
    · rw [evalExpr]
      simp [h1, h2, exceptOkBind, applyBinaryOp]
    · rw [evalExpr]
      simp [h1, h2, exceptOkBind, applyBinaryOp]
  · intro v
    cases v <;> simp [Value.isTruthy, String.isEmpty_iff]

/-- Claim C7, witness: `false && (x = 1)` evaluates the right operand — the
result is `Boolean(false)` and the assignment's state effect has
happened. -/
theorem C7_witness :
    evalExpr 11 initState
      (.binaryOp (.literal (.boolean false)) .and
        (.assign "x" (.literal (.number 1)))) =
      .ok (.boolean false, setVariable initState "x" (.number 1)) :=
  (C7_theorem.1 10 initState initState (setVariable initState "x" (.number 1))
    (.literal (.boolean false)) (.assign "x" (.literal (.number 1)))
    (.boolean false) (.number 1) rfl rfl).1

/-- Claim C8: when the right operand of `/` coerces to exactly zero the
evaluation reports the DivisionByZero error (never a Number), and for
every non-zero divisor it returns the Number quotient. -/
theorem C8_theorem :
    ∀ (l r : Value) (a b : Rat),
      l.toNumber = .ok a → r.toNumber = .ok b →
      ((b = 0 → applyBinaryOp l .divide r = .error "Division by zero") ∧
       (b ≠ 0 → applyBinaryOp l .divide r = .ok (.number (a / b)))) := by
  intro l r a b ha hb
  constructor
  · intro h0
    simp [applyBinaryOp, ha, hb, exceptOkBind, h0]
  · intro h0
    simp [applyBinaryOp, ha, hb, exceptOkBind, h0]

/-- Claim C8, witness: `1 / 0` is the DivisionByZero error and `6 / 2` is
`Number(3)`. -/
theorem C8_witness :
    applyBinaryOp (.number 1) .divide (.number 0) =
      .error "Division by zero" ∧
    applyBinaryOp (.number 6) .divide (.number 2) = .ok (.number 3) := by
  constructor
  · exact (C8_theorem (.number 1) (.number 0) 1 0 rfl rfl).1 rfl
  · have h := (C8_theorem (.number 6) (.number 2) 6 2 rfl rfl).2 (by norm_num)
    rw [show (6 : Rat) / 2 = 3 by norm_num] at h
    exact h

/-- Claim C9: a method call pads missing arguments with `Null` (no arity
error: `b.m()` returns `Null`), ignores surplus arguments without
evaluating them (`b.m(7, x = 99)` returns `7` and leaves `x` undefined),
while an ordinary function call rejects an arity mismatch. -/
theorem C9_theorem :
    runThenEval 100 progC9 (.var "r") = .ok (.number 7) ∧
    runThenEval 100 progC9 (.var "x") =
      .error (.e "Undefined variable: x") ∧
    runThenEval 100 progC9 (.methodCall (.var "b") "m" []) = .ok .null ∧
    runThenEval 100 progC9fn (.functionCall "g" []) =
      .error (.e "Function g expects 1 arguments, got 0") :=
  ⟨rfl, rfl, rfl, rfl⟩

/-- Claim C10: `for (x in [1,2,3])` defines `x` in the enclosing scope (at
top level: globals), so after the loop `x` is still bound and holds the
last element `3`; inside a block the binding lands in the block's frame
and is gone once the block's frame is popped. -/
theorem C10_theorem :
    runThenEval 100 progC10 (.var "x") = .ok (.number 3) ∧
    runThenEval 100 progC10block (.var "x") =
      .error (.e "Undefined variable: x") :=
  ⟨rfl, rfl⟩

end Platypus
